import Mathlib

/-!
Verification of the Decision & Risk Guardrail Engine of the forex-signals
repository, against its natural-language specification.

The Python source is shallowly embedded: `Decimal` and `float` arithmetic is
modelled by exact rational arithmetic (`ℚ`); Python exceptions raised by an
engine's `score` call are modelled by an explicit `raises` constructor;
Python's truthiness of optional numeric arguments (`if kelly_fraction:`,
where both `None` and zero are falsy) is modelled by the `truthy` predicate;
`round(x, 4)` is modelled by exact half-even rounding at four decimal places;
timestamps are rationals measured in hours.
-/

namespace ForexSignals

/-- `min(1.0, max(0.0, x))`, the clamp-to-`[0,1]` idiom used throughout the source. -/
def clamp01 (x : ℚ) : ℚ := min 1 (max 0 x)

/-- Round to the nearest integer, ties to even (Python `round` semantics). -/
def roundHalfEven (q : ℚ) : ℤ :=
  let f := ⌊q⌋
  let r := q - f
  if r < 1/2 then f
  else if 1/2 < r then f + 1
  else if f % 2 = 0 then f else f + 1

/-- Python `round(x, 4)`: round to four decimal places, ties to even. -/
def round4 (q : ℚ) : ℚ := (roundHalfEven (q * 10000) : ℚ) / 10000

/-- Arithmetic mean of a list (`np.mean`); `0` on the empty list. -/
def listMean (xs : List ℚ) : ℚ := xs.sum / xs.length

/-- Python `max(xs)` for a nonempty list, `0` when the guard falls back (`if xs else 0.0`). -/
def listMax0 : List ℚ → ℚ
  | [] => 0
  | x :: xs => xs.foldl max x

/-- `Decimal.quantize(Decimal(1), ROUND_DOWN)`: truncation toward zero. -/
def truncQ (q : ℚ) : ℚ := if 0 ≤ q then (⌊q⌋ : ℤ) else ((⌈q⌉ : ℤ) : ℚ)

/-- Python truthiness of an optional numeric value: `None` and `0` are falsy. -/
def truthy : Option ℚ → Bool
  | none => false
  | some x => decide (x ≠ 0)

/-! ## src/core/sizing.py — PositionSizer -/

/-- `PositionSizer.__init__`: account balance and max risk per trade (2% default). -/
structure PositionSizer where
  account_balance : ℚ
  max_risk_per_trade : ℚ := 1/50

namespace PositionSizer

/-- `PositionSizer._get_pip_value`: `1.0` for `*USD` quote pairs, else `1/price × 10000`. -/
def get_pip_value (instrument : String) (price : ℚ) : ℚ :=
  if instrument.drop 3 = "USD" then 1 else 1 / price * 10000

/-- `PositionSizer._calculate_gssi_multiplier`: GSSI ≥ 0.8 → 0.5, GSSI ≥ 0.6 → 0.75, else 1.0. -/
def calculate_gssi_multiplier (gssi_score : ℚ) : ℚ :=
  if gssi_score ≥ 4/5 then 1/2
  else if gssi_score ≥ 3/5 then 3/4
  else 1

/-- The sizing breakdown dict built by `calculate_position_size`. -/
structure SizingBreakdown where
  stop_distance_pips : ℚ
  units_risk : ℚ
  units_notional : ℚ
  final_units : ℚ
  kelly_fraction : Option ℚ
  gssi_score : Option ℚ
  leverage_used : ℚ
  deriving DecidableEq, Repr

/-- `PositionSizer.calculate_position_size`.  Risk-based units from the 2% risk
budget, notional units from the 50× leverage cap, optional Kelly cap (0.25) and
GSSI multiplier applied to the risk-based units only when the optional argument
is truthy (non-`None` and nonzero), final units truncated toward zero. -/
def calculate_position_size (ps : PositionSizer) (instrument : String)
    (entry_price stop_loss : ℚ) (kelly_fraction gssi_score : Option ℚ) :
    SizingBreakdown :=
  let pip_value := get_pip_value instrument entry_price
  let stop_distance_pips := |entry_price - stop_loss| * 10000
  let risk_amount := ps.account_balance * ps.max_risk_per_trade
  let units_risk0 := risk_amount / (stop_distance_pips * pip_value)
  let units_notional := ps.account_balance * 50 / entry_price
  let kelly_capped : Option ℚ :=
    if truthy kelly_fraction then some (min (kelly_fraction.getD 0) (1/4)) else kelly_fraction
  let units_risk1 :=
    if truthy kelly_fraction then units_risk0 * min (kelly_fraction.getD 0) (1/4) else units_risk0
  let units_risk2 :=
    if truthy gssi_score then units_risk1 * calculate_gssi_multiplier (gssi_score.getD 0)
    else units_risk1
  let final_units := truncQ (min units_risk2 units_notional)
  { stop_distance_pips := stop_distance_pips
    units_risk := units_risk2
    units_notional := units_notional
    final_units := final_units
    kelly_fraction := if truthy kelly_capped then kelly_capped else none
    gssi_score := if truthy gssi_score then gssi_score else none
    leverage_used := final_units * entry_price / ps.account_balance }

end PositionSizer

/-! ## src/core/sizing.py — AddToWinnersManager -/

/-- `AddToWinnersManager` state: `"initial" → "add_1" → "add_2" → "maxed"`. -/
structure AddToWinnersManager where
  state : String := "initial"
  deriving DecidableEq, Repr

namespace AddToWinnersManager

/-- `self.progress_threshold = Decimal('0.7')`. -/
def progress_threshold : ℚ := 7/10

/-- `self.drawdown_limit = Decimal('0.25')`. -/
def drawdown_limit : ℚ := 1/4

/-- Result dict of `check_add_eligibility`. -/
structure AddCheckResult where
  eligible : Bool
  current_state : String
  new_breakeven : Option ℚ
  deriving DecidableEq, Repr

/-- `AddToWinnersManager.check_add_eligibility`: eligible iff
`progress ≥ 0.7` and `drawdown ≤ 0.25`; from the `"initial"` state an eligible
check moves to `"add_1"` and computes a weighted breakeven reset. -/
def check_add_eligibility (m : AddToWinnersManager)
    (current_progress max_drawdown initial_risk : ℚ) :
    AddCheckResult × AddToWinnersManager :=
  let eligible : Bool :=
    decide (current_progress ≥ progress_threshold) && decide (max_drawdown ≤ drawdown_limit)
  if eligible ∧ m.state = "initial" then
    let m2 : AddToWinnersManager := { state := "add_1" }
    let new_be := initial_risk * current_progress * (1/2)
    ({ eligible := eligible, current_state := m2.state
       new_breakeven := if new_be = 0 then none else some new_be }, m2)
  else
    ({ eligible := eligible, current_state := m.state, new_breakeven := none }, m)

end AddToWinnersManager

/-! ## src/engines/gssi_car_engine.py — GSSICAREngine -/

/-- The `market_data` dict fields read by `calculate_gssi_score`, with the
`dict.get` default used when a key is absent. -/
structure MarketData where
  vix : ℚ := 20
  correlations : List ℚ := []
  spreads : List ℚ := []
  momentum_breakdown : ℚ := 3/10
  deriving DecidableEq, Repr

/-- The `portfolio_data` dict fields read by `calculate_car_score`:
per-position notionals and per-strategy exposure fractions. -/
structure PortfolioData where
  positions : List ℚ := []
  strategy_exposures : List ℚ := []
  deriving DecidableEq, Repr

namespace GSSICAREngine

/-- VIX stress component: `(vix − 12)/50` clamped to `[0,1]`. -/
def vix_stress (md : MarketData) : ℚ := clamp01 ((md.vix - 12) / 50)

/-- `np.mean(correlations.values())` with fallback `0.6` on an empty dict. -/
def avg_correlation (md : MarketData) : ℚ :=
  if md.correlations.isEmpty then 3/5 else listMean md.correlations

/-- Correlation stress component: `(avg − 0.3)/0.6` clamped to `[0,1]`. -/
def correlation_stress (md : MarketData) : ℚ :=
  clamp01 ((avg_correlation md - 3/10) / (3/5))

/-- `np.mean(spreads.values())` with fallback `1.5` on an empty dict. -/
def avg_spread (md : MarketData) : ℚ :=
  if md.spreads.isEmpty then 3/2 else listMean md.spreads

/-- Liquidity stress component: `(avg_spread − 1)/(5 − 1)` clamped to `[0,1]`. -/
def liquidity_stress (md : MarketData) : ℚ :=
  clamp01 ((avg_spread md - 1) / (5 - 1))

/-- The weighted GSSI sum before display rounding: the `momentum_breakdown`
input is used raw, without any clamp. -/
def gssi_raw (md : MarketData) : ℚ :=
  3/10 * vix_stress md + 1/4 * correlation_stress md +
  1/4 * liquidity_stress md + 1/5 * md.momentum_breakdown

/-- `GSSICAREngine.calculate_gssi_score`: the `gssi_score` entry of the
returned dict (`round(gssi_score, 4)`). -/
def calculate_gssi_score (md : MarketData) : ℚ := round4 (gssi_raw md)

/-- `GSSICAREngine.calculate_car_score`: Herfindahl concentration (doubled and
clamped), alpha concentration against the 0.15 threshold, and a 0.3 GSSI
influence; returned as `round(car_score, 4)`. -/
def calculate_car_score (pd : PortfolioData) (gssi_score : ℚ) : ℚ :=
  let total_exposure := (pd.positions.map (fun x => |x|)).sum
  let concentration_risk :=
    if total_exposure = 0 then 0
    else
      let exposures := pd.positions.map (fun x => |x| / total_exposure)
      min 1 ((exposures.map (fun e => e ^ 2)).sum * 2)
  let alpha_concentration := min 1 (listMax0 pd.strategy_exposures / (3/20))
  round4 (concentration_risk * (2/5) + alpha_concentration * (3/10) + gssi_score * (3/10))

/-- GSSI tier of `apply_dynamic_leverage_adjustment`:
≥ 0.8 → 0.4, ≥ 0.6 → 0.6, ≥ 0.4 → 0.8, else 1.0. -/
def leverage_gssi_multiplier (gssi_score : ℚ) : ℚ :=
  if gssi_score ≥ 4/5 then 2/5
  else if gssi_score ≥ 3/5 then 3/5
  else if gssi_score ≥ 2/5 then 4/5
  else 1

/-- CAR tier of `apply_dynamic_leverage_adjustment`:
≥ 0.7 → 0.5, ≥ 0.5 → 0.75, else 1.0. -/
def leverage_car_multiplier (car_score : ℚ) : ℚ :=
  if car_score ≥ 7/10 then 1/2
  else if car_score ≥ 1/2 then 3/4
  else 1

/-- `GSSICAREngine.apply_dynamic_leverage_adjustment`: the `final_leverage`
entry, `min(base × gssi_mult × car_mult, 50)`. -/
def apply_dynamic_leverage_adjustment (base_leverage gssi_score car_score : ℚ) : ℚ :=
  min (base_leverage * (leverage_gssi_multiplier gssi_score * leverage_car_multiplier car_score)) 50

end GSSICAREngine

/-! ## src/engines/gssi_car_engine.py — MarketRegimeClassifier -/

/-- The six market regimes. -/
inductive MarketRegime where
  | trending_bull
  | trending_bear
  | ranging_high_vol
  | ranging_low_vol
  | crisis_mode
  | recovery_mode
  deriving DecidableEq, BEq, Repr

/-- The `market_features` dict fields read by `classify_market_regime`,
with the `dict.get` defaults. -/
structure MarketFeatures where
  volatility : ℚ := 1/5
  trend_strength : ℚ := 0
  volume_trend : ℚ := 0
  crisis_score : ℚ := 0
  deriving DecidableEq, Repr

/-- Mutable classifier state: current regime (initially ranging-low-vol) and
its confidence. -/
structure MarketRegimeClassifier where
  current_regime : MarketRegime := .ranging_low_vol
  regime_confidence : ℚ := 1/2
  deriving DecidableEq, Repr

namespace MarketRegimeClassifier

/-- `self.confidence_threshold = 0.8`. -/
def confidence_threshold : ℚ := 4/5

/-- Per-regime linear score from the four features (`regime_scores` dict). -/
def regime_score (mf : MarketFeatures) : MarketRegime → ℚ
  | .trending_bull =>
      max 0 mf.trend_strength * (2/5) + (1 - mf.volatility) * (3/10) +
      max 0 mf.volume_trend * (3/10)
  | .trending_bear =>
      max 0 (-mf.trend_strength) * (2/5) + mf.volatility * (3/10) +
      max 0 (-mf.volume_trend) * (3/10)
  | .ranging_high_vol => (1 - |mf.trend_strength|) * (1/2) + mf.volatility * (1/2)
  | .ranging_low_vol => (1 - |mf.trend_strength|) * (3/5) + (1 - mf.volatility) * (2/5)
  | .crisis_mode => mf.crisis_score
  | .recovery_mode => max 0 (1 - mf.crisis_score) * max 0 (mf.trend_strength + mf.volume_trend)

/-- The regimes in the insertion order of the `regime_scores` dict. -/
def regime_order : List MarketRegime :=
  [.trending_bull, .trending_bear, .ranging_high_vol, .ranging_low_vol,
   .crisis_mode, .recovery_mode]

/-- `max(regime_scores.keys(), key=...)`: the first regime attaining the
maximal score, in dict order (Python `max` keeps the earliest maximum). -/
def best_regime (mf : MarketFeatures) : MarketRegime :=
  (regime_order.tail).foldl
    (fun acc r => if regime_score mf r > regime_score mf acc then r else acc)
    .trending_bull

/-- Insert into a descending-sorted list. -/
def insertDesc (x : ℚ) : List ℚ → List ℚ
  | [] => [x]
  | y :: ys => if x ≥ y then x :: y :: ys else y :: insertDesc x ys

/-- `sorted(regime_scores.values(), reverse=True)`. -/
def sortDesc (l : List ℚ) : List ℚ := l.foldr insertDesc []

/-- `sorted_scores[1] if len(sorted_scores) > 1 else 0`. -/
def second_best (mf : MarketFeatures) : ℚ :=
  (sortDesc (regime_order.map (regime_score mf))).getD 1 0

/-- `confidence = min(1.0, (best − second_best) × 2)`. -/
def confidence (mf : MarketFeatures) : ℚ :=
  min 1 ((regime_score mf (best_regime mf) - second_best mf) * 2)

/-- Result dict of `classify_market_regime`. -/
structure ClassificationResult where
  previous_regime : MarketRegime
  current_regime : MarketRegime
  regime_changed : Bool
  confidence : ℚ
  deriving DecidableEq, Repr

/-- `MarketRegimeClassifier.classify_market_regime`: scores the six regimes,
updates `current_regime` only when the confidence margin reaches the 0.8
hysteresis threshold. -/
def classify_market_regime (st : MarketRegimeClassifier) (mf : MarketFeatures) :
    ClassificationResult × MarketRegimeClassifier :=
  let best := best_regime mf
  let conf := confidence mf
  let st2 :=
    if conf ≥ confidence_threshold then
      { current_regime := best, regime_confidence := conf }
    else st
  ({ previous_regime := st.current_regime
     current_regime := st2.current_regime
     regime_changed := decide (st.current_regime ≠ st2.current_regime)
     confidence := round4 conf }, st2)

end MarketRegimeClassifier

/-! ## src/engines/sentinel_engine.py — SentinelEngine -/

/-- Sentinel modes. -/
inductive SentinelMode where
  | stand_down
  | protect
  | pounce
  deriving DecidableEq, BEq, Repr

/-- The `.value` string of a mode. -/
def SentinelMode.modeValue : SentinelMode → String
  | .stand_down => "stand_down"
  | .protect => "protect"
  | .pounce => "pounce"

namespace SentinelEngine

/-- `SentinelEngine.should_override_strategy_router`: true iff the mode is not
stand-down. -/
def should_override_strategy_router (mode : SentinelMode) : Bool :=
  !(mode == SentinelMode.stand_down)

end SentinelEngine

/-! ## src/engines/calibration_engine.py — CalibrationDegradationAuditor -/

/-- Calibration system states. -/
inductive SystemState where
  | normal
  | weight_lock
  | recalibration
  | route_diversion
  deriving DecidableEq, BEq, Repr

/-- One `(predicted_prob, actual_outcome)` record of the prediction history
(the outcome is stored as `1.0`/`0.0`). -/
structure PredictionRecord where
  predicted_prob : ℚ
  actual_outcome : ℚ
  deriving DecidableEq, Repr

/-- Mutable auditor state: system state, lock-start timestamp (hours) and the
prediction history. -/
structure CalibrationDegradationAuditor where
  system_state : SystemState := .normal
  weight_lock_start : Option ℚ := none
  prediction_history : List PredictionRecord := []
  current_ece : ℚ := 0
  deriving DecidableEq, Repr

namespace CalibrationDegradationAuditor

/-- `self.ece_threshold = 0.05`. -/
def ece_threshold : ℚ := 1/20

/-- `self.weight_lock_duration = timedelta(hours=48)`, in hours. -/
def weight_lock_duration : ℚ := 48

/-- Membership of a prediction in bin `i` of `n_bins` uniform bins:
`[i/n, (i+1)/n)`, with the last bin closed above. -/
def in_bin (n_bins i : ℕ) (p : ℚ) : Bool :=
  let lo : ℚ := (i : ℚ) / (n_bins : ℚ)
  let hi : ℚ := ((i + 1 : ℕ) : ℚ) / (n_bins : ℚ)
  if i = n_bins - 1 then decide (lo ≤ p) && decide (p ≤ hi)
  else decide (lo ≤ p) && decide (p < hi)

/-- One bin's contribution to the ECE loop: skipped when empty, else
`|mean(outcomes) − mean(predictions)| × count/total`. -/
def bin_contribution (hist : List PredictionRecord) (n_bins i : ℕ) : ℚ :=
  let bin := hist.filter (fun r => in_bin n_bins i r.predicted_prob)
  if bin.length = 0 then 0
  else
    let bin_confidence := (bin.map (fun r => r.predicted_prob)).sum / bin.length
    let bin_accuracy := (bin.map (fun r => r.actual_outcome)).sum / bin.length
    |bin_accuracy - bin_confidence| * ((bin.length : ℚ) / (hist.length : ℚ))

/-- The accumulated `ece` value of the `calculate_ece` loop over `n_bins` bins. -/
def ece_value (hist : List PredictionRecord) (n_bins : ℕ) : ℚ :=
  ((List.range n_bins).map (bin_contribution hist n_bins)).sum

/-- The ECE of the specification, stated as in §4.4: over 10 uniform bins,
`ece = Σᵢ |mean(outcomes in bin i) − mean(predictions in bin i)| × (count in bin i / total)`
(a bin with no predictions contributes nothing: its means and weight are zero). -/
def ece_spec (hist : List PredictionRecord) : ℚ :=
  ∑ i ∈ Finset.range 10,
    (let bin := hist.filter (fun r => in_bin 10 i r.predicted_prob)
     |(bin.map (fun r => r.actual_outcome)).sum / bin.length -
       (bin.map (fun r => r.predicted_prob)).sum / bin.length| *
       ((bin.length : ℚ) / (hist.length : ℚ)))

/-- Result dict of `calculate_ece`. -/
structure EceResult where
  ece : ℚ
  insufficient_data : Bool
  breach : Bool
  weight_lock_triggered : Bool
  sample_count : ℕ
  deriving DecidableEq, Repr

/-- `CalibrationDegradationAuditor._trigger_weight_lock`. -/
def trigger_weight_lock (s : CalibrationDegradationAuditor) (now : ℚ) :
    CalibrationDegradationAuditor :=
  { s with system_state := .weight_lock, weight_lock_start := some now }

/-- `CalibrationDegradationAuditor.calculate_ece` with the default 10 bins:
returns the result dict (its `ece` entry is `round(ece, 4)`) and the updated
auditor state; requires at least 20 samples, and triggers the weight lock when
the ECE exceeds the 0.05 threshold while the state is normal. -/
def calculate_ece (s : CalibrationDegradationAuditor) (now : ℚ) :
    EceResult × CalibrationDegradationAuditor :=
  if s.prediction_history.length < 20 then
    ({ ece := 0, insufficient_data := true, breach := false,
       weight_lock_triggered := false, sample_count := s.prediction_history.length }, s)
  else
    let ece := ece_value s.prediction_history 10
    let s1 := { s with current_ece := ece }
    if ece > ece_threshold ∧ s.system_state = .normal then
      ({ ece := round4 ece, insufficient_data := false, breach := decide (ece > ece_threshold),
         weight_lock_triggered := true, sample_count := s.prediction_history.length },
       trigger_weight_lock s1 now)
    else
      ({ ece := round4 ece, insufficient_data := false, breach := decide (ece > ece_threshold),
         weight_lock_triggered := false, sample_count := s.prediction_history.length }, s1)

/-- Result dict of `check_weight_lock_status`. -/
structure LockStatus where
  weight_lock_active : Bool
  weight_lock_released : Bool := false
  recalibration_started : Bool := false
  deriving DecidableEq, Repr

/-- `CalibrationDegradationAuditor.check_weight_lock_status`: while in weight
lock, reports the lock active until 48 hours have elapsed from the lock start,
then releases it into recalibration. -/
def check_weight_lock_status (s : CalibrationDegradationAuditor) (now : ℚ) :
    LockStatus × CalibrationDegradationAuditor :=
  match s.weight_lock_start with
  | none => ({ weight_lock_active := false }, s)
  | some start =>
    if s.system_state ≠ SystemState.weight_lock then ({ weight_lock_active := false }, s)
    else if now - start ≥ weight_lock_duration then
      ({ weight_lock_active := false, weight_lock_released := true,
         recalibration_started := true }, { s with system_state := .recalibration })
    else ({ weight_lock_active := true }, s)

end CalibrationDegradationAuditor

/-! ## src/engines/supervisor_engine.py — SupervisorEngine -/

/-- The duck-typed value an engine's `score` call may return: a
`(score, reason)` tuple, a bare number, or something else. -/
inductive EngineResult where
  | tup (score : ℚ) (reason : String)
  | num (score : ℚ)
  | unknown
  deriving DecidableEq, Repr

/-- Behaviour of one engine's `score(context)` call on the cycle's context:
either it returns a value or it raises an exception with a message. -/
inductive EngineCall where
  | ok (result : EngineResult)
  | raises (msg : String)
  deriving DecidableEq, Repr

/-- `SupervisorEngine.__init__`: the engine map, base weights, current weights,
and the System 2.1 integration flags (all enabled at construction). -/
structure SupervisorEngine where
  engines : List (String × EngineCall)
  base_weights : List (String × ℚ)
  current_weights : List (String × ℚ)
  mrc_integration : Bool := true
  gssi_car_integration : Bool := true
  deriving DecidableEq, Repr

namespace SupervisorEngine

/-- Result unpacking of `_async_score`: a raised exception degrades to score
`0.0` with an `engine_error:` reason; tuple and numeric results are accepted,
anything else degrades to `0.0`. -/
def unpack_async : EngineCall → ℚ × String
  | .raises e => (0, "engine_error: " ++ e)
  | .ok (.tup s r) => (s, r)
  | .ok (.num s) => (s, "numeric_result")
  | .ok .unknown => (0, "unknown_result_type")

/-- Result unpacking of `_basic_score`: as `_async_score` but a raised
exception records an `error:` reason. -/
def unpack_basic : EngineCall → ℚ × String
  | .raises e => (0, "error: " ++ e)
  | .ok (.tup s r) => (s, r)
  | .ok (.num s) => (s, "numeric_result")
  | .ok .unknown => (0, "unknown_result_type")

/-- `SupervisorEngine._merge_weights`: regime weights override base weights
where the engine name is present in both, then the result is normalized to sum
1.0 (when the total is positive). -/
def merge_weights (base regime : List (String × ℚ)) : List (String × ℚ) :=
  let merged := base.map (fun p => (p.1, ((regime.lookup p.1).getD p.2)))
  let total := (merged.map (fun p => p.2)).sum
  if total > 0 then merged.map (fun p => (p.1, p.2 / total)) else merged

/-- `_apply_gssi_car_adjustment`'s tiered adjustment factor from the GSSI and
CAR scores. -/
def adjustment_factor (gssi_score car_score : ℚ) : ℚ :=
  if gssi_score ≥ 4/5 ∨ car_score ≥ 7/10 then 3/10
  else if gssi_score ≥ 3/5 ∨ car_score ≥ 1/2 then 3/5
  else if gssi_score ≥ 2/5 ∨ car_score ≥ 3/10 then 4/5
  else 1

/-- The supervisor's decision record (the fields of the result dict the claims
are about). -/
structure Decision where
  supervisor_decision : String
  final_score : ℚ
  engine_scores : List (String × ℚ)
  reasons : List (String × String)
  weights_used : List (String × ℚ) := []
  sentinel_override : Bool := false
  sentinel_mode : String := ""
  override_reason : String := ""
  deriving DecidableEq, Repr

/-- `SupervisorEngine._async_score`.  The sentinel override is checked first
and short-circuits everything; otherwise regime weights are merged in, every
engine is scored with per-engine exception degradation, the weighted sum is
taken and the GSSI/CAR adjustment factor applied.  The `calib` argument is the
global `calibration_auditor` system state, which `_async_score` can reach but
never reads: no calibration lock check occurs on this path. -/
def async_score (sup : SupervisorEngine) (mode : SentinelMode) (calib : SystemState)
    (regime_weights : List (String × ℚ)) (md : MarketData) (pd : PortfolioData) :
    ℚ × Decision :=
  if SentinelEngine.should_override_strategy_router mode then
    (0, { supervisor_decision := "SENTINEL_OVERRIDE", final_score := 0,
          engine_scores := [], reasons := [], sentinel_override := true,
          sentinel_mode := mode.modeValue, override_reason := "black_swan_protection" })
  else
    let weights :=
      if sup.mrc_integration then merge_weights sup.base_weights regime_weights
      else sup.current_weights
    let scores := sup.engines.map (fun p => (p.1, (unpack_async p.2).1))
    let reasons := sup.engines.map (fun p => (p.1, (unpack_async p.2).2))
    let final := (scores.map (fun p => p.2 * ((weights.lookup p.1).getD 0))).sum
    let final2 :=
      if sup.gssi_car_integration then
        let gssi := GSSICAREngine.calculate_gssi_score md
        let car := GSSICAREngine.calculate_car_score pd gssi
        final * adjustment_factor gssi car
      else final
    (final2, { supervisor_decision := "NORMAL_PROCESSING", final_score := round4 final2,
               engine_scores := scores, reasons := reasons, weights_used := weights })

/-- `SupervisorEngine._basic_score`, the synchronous fallback: scores every
engine with per-engine exception degradation against `current_weights` and
returns the weighted sum.  It consults neither the sentinel nor the regime
weights nor the GSSI/CAR adjustment. -/
def basic_score (sup : SupervisorEngine) : ℚ × Decision :=
  let scores := sup.engines.map (fun p => (p.1, (unpack_basic p.2).1))
  let reasons := sup.engines.map (fun p => (p.1, (unpack_basic p.2).2))
  let final := (scores.map (fun p => p.2 * ((sup.current_weights.lookup p.1).getD 0))).sum
  (final, { supervisor_decision := "BASIC_FALLBACK", final_score := final,
            engine_scores := scores, reasons := reasons })

/-- `SupervisorEngine.score`: runs `_async_score` through the event loop and
falls back to `_basic_score` when the asyncio plumbing raises.  Which branch
runs depends on the runtime loop state, modelled by the `async_path` flag. -/
def score (sup : SupervisorEngine) (async_path : Bool) (mode : SentinelMode)
    (calib : SystemState) (regime_weights : List (String × ℚ))
    (md : MarketData) (pd : PortfolioData) : ℚ × Decision :=
  if async_path then async_score sup mode calib regime_weights md pd
  else basic_score sup

end SupervisorEngine

/-! ## Helper lemmas -/

theorem clamp01_nonneg (x : ℚ) : 0 ≤ clamp01 x := by
  unfold clamp01
  exact le_min (by norm_num) (le_max_left 0 x)

theorem clamp01_le_one (x : ℚ) : clamp01 x ≤ 1 := min_le_left 1 (max 0 x)

theorem roundHalfEven_le_int (q : ℚ) (n : ℤ) (h : q ≤ n) : roundHalfEven q ≤ n := by
  have hfl : ⌊q⌋ ≤ n := by
    have := Int.floor_le_floor h
    simpa using this
  unfold roundHalfEven
  dsimp only
  split_ifs with h1 h2 h3
  · exact hfl
  · rcases lt_or_eq_of_le hfl with hlt | heq
    · omega
    · exfalso
      have : q - (⌊q⌋ : ℚ) ≤ 0 := by
        rw [heq]; push_cast; linarith
      linarith
  · exact hfl
  · rcases lt_or_eq_of_le hfl with hlt | heq
    · omega
    · exfalso
      have hr : q - (⌊q⌋ : ℚ) = 1/2 := le_antisymm (not_lt.mp h2) (not_lt.mp h1)
      have : q - (⌊q⌋ : ℚ) ≤ 0 := by
        rw [heq]; push_cast; linarith
      linarith

theorem int_le_roundHalfEven (q : ℚ) (n : ℤ) (h : (n : ℚ) ≤ q) : n ≤ roundHalfEven q := by
  have hfl : n ≤ ⌊q⌋ := Int.le_floor.mpr h
  unfold roundHalfEven
  dsimp only
  split_ifs <;> omega

theorem round4_nonneg (q : ℚ) (h : 0 ≤ q) : 0 ≤ round4 q := by
  unfold round4
  have h1 : (0 : ℤ) ≤ roundHalfEven (q * 10000) :=
    int_le_roundHalfEven _ 0 (by push_cast; nlinarith)
  positivity

theorem round4_le_one (q : ℚ) (h : q ≤ 1) : round4 q ≤ 1 := by
  unfold round4
  have h1 : roundHalfEven (q * 10000) ≤ 10000 :=
    roundHalfEven_le_int _ 10000 (by push_cast; nlinarith)
  rw [div_le_one (by norm_num)]
  exact_mod_cast h1

theorem truncQ_le (x y : ℚ) (hxy : x ≤ y) (hy : 0 ≤ y) : truncQ x ≤ y := by
  unfold truncQ
  split_ifs with h
  · exact le_trans (Int.floor_le x) hxy
  · have hx : x ≤ 0 := le_of_not_le h
    have hc : (⌈x⌉ : ℤ) ≤ 0 := Int.ceil_le.mpr (by exact_mod_cast hx)
    have : ((⌈x⌉ : ℤ) : ℚ) ≤ 0 := by exact_mod_cast hc
    linarith

theorem sum_range_list {M : Type} [AddCommMonoid M] (n : ℕ) (f : ℕ → M) :
    ∑ i ∈ Finset.range n, f i = ((List.range n).map f).sum := by
  induction n with
  | zero => simp
  | succ m ih => rw [Finset.sum_range_succ, List.range_succ]; simp [ih]

theorem lookup_map_snd {β γ : Type} (l : List (String × β)) (f : β → γ) (k : String) :
    (l.map (fun p => (p.1, f p.2))).lookup k = (l.lookup k).map f := by
  induction l with
  | nil => rfl
  | cons hd t ih =>
    cases hd with
    | mk a b =>
      simp only [List.map, List.lookup]
      cases hk : k == a <;> simp [hk, ih, List.lookup]

theorem lookup_eq_of_mem_of_nodup {β : Type} (l : List (String × β)) (k : String) (v : β)
    (hmem : (k, v) ∈ l) (hnd : (l.map Prod.fst).Nodup) : l.lookup k = some v := by
  induction l with
  | nil => cases hmem
  | cons hd t ih =>
    cases hd with
    | mk a b =>
      simp only [List.map_cons, List.nodup_cons] at hnd
      rcases List.mem_cons.mp hmem with heq | hmem2
      · cases heq
        simp [List.lookup]
      · have hk : k ≠ a := by
          intro hka
          subst hka
          exact hnd.1 (List.mem_map.mpr ⟨(k, v), hmem2, rfl⟩)
        have hbeq : (k == a) = false := beq_eq_false_iff_ne.mpr hk
        simp only [List.lookup, hbeq]
        exact ih hmem2 hnd.2

/-- Two entries of an association list with nodup keys and the same key are
the same entry. -/
theorem eq_of_mem_of_nodup_keys {β : Type} (l : List (String × β)) (p q : String × β)
    (hp : p ∈ l) (hq : q ∈ l) (hnd : (l.map Prod.fst).Nodup) (hk : p.1 = q.1) : p = q := by
  induction l with
  | nil => cases hp
  | cons hd t ih =>
    simp only [List.map_cons, List.nodup_cons] at hnd
    rcases List.mem_cons.mp hp with hp1 | hp2 <;> rcases List.mem_cons.mp hq with hq1 | hq2
    · rw [hp1, hq1]
    · exfalso
      apply hnd.1
      rw [← hp1, hk]
      exact List.mem_map.mpr ⟨q, hq2, rfl⟩
    · exfalso
      apply hnd.1
      rw [← hq1, ← hk]
      exact List.mem_map.mpr ⟨p, hp2, rfl⟩
    · exact ih hp2 hq2 hnd.2

/-- Entries mapping to zero can be filtered out of a sum: dropping all engines
named `name` does not change the supervisor sum when every engine of that name
contributes zero. -/
theorem sum_map_filter_ne {β : Type} (l : List (String × β)) (name : String)
    (f : String × β → ℚ) (h0 : ∀ p ∈ l, p.1 = name → f p = 0) :
    (l.map f).sum = ((l.filter (fun p => p.1 != name)).map f).sum := by
  induction l with
  | nil => rfl
  | cons hd t ih =>
    rw [List.filter_cons]
    by_cases hn : hd.1 = name
    · have hb : (hd.1 != name) = false := by simp [hn]
      rw [hb]
      simp only [List.map_cons, List.sum_cons, h0 hd (List.mem_cons_self hd t) hn, zero_add,
        if_false, Bool.false_eq_true]
      exact ih (fun p hp hpn => h0 p (List.mem_cons_of_mem hd hp) hpn)
    · have hb : (hd.1 != name) = true := by simp [hn]
      rw [hb]
      simp only [List.map_cons, List.sum_cons, if_true]
      rw [ih (fun p hp hpn => h0 p (List.mem_cons_of_mem hd hp) hpn)]

/-- Dropping the engines named `name` does not change the weighted sum the
supervisor computes, when every engine of that name unpacks to score zero. -/
theorem weighted_sum_filter (l : List (String × EngineCall)) (name : String)
    (u : EngineCall → ℚ × String) (w : List (String × ℚ))
    (h0 : ∀ p ∈ l, p.1 = name → (u p.2).1 = 0) :
    ((l.map (fun p => (p.1, (u p.2).1))).map
        (fun p => p.2 * ((w.lookup p.1).getD 0))).sum =
      (((l.filter (fun p => p.1 != name)).map (fun p => (p.1, (u p.2).1))).map
        (fun p => p.2 * ((w.lookup p.1).getD 0))).sum := by
  rw [List.map_map, List.map_map]
  refine sum_map_filter_ne l name _ ?_
  intro p hp hpn
  show (u p.2).1 * ((w.lookup p.1).getD 0) = 0
  rw [h0 p hp hpn, zero_mul]

/-! ## Concrete instances used by counterexamples and witnesses -/

/-- A minimal supervisor: one engine returning the tuple `(0.5, "r")` with
weight `1.0`. -/
def oneEngineSup : SupervisorEngine :=
  { engines := [("e", .ok (.tup (1/2) "r"))]
    base_weights := [("e", 1)]
    current_weights := [("e", 1)] }

/-- A supervisor with a raising engine "a" and a healthy numeric engine "b". -/
def twoEngineSup : SupervisorEngine :=
  { engines := [("a", .raises "boom"), ("b", .ok (.num 1))]
    base_weights := [("a", 1/2), ("b", 1/2)]
    current_weights := [("a", 1/2), ("b", 1/2)] }

/-- Market data with no stress at all: every GSSI component evaluates to zero. -/
def quietMarket : MarketData :=
  { vix := 12, correlations := [3/10], spreads := [1], momentum_breakdown := 0 }

/-! ## Claims -/

/-- C9: Add-to-Winners eligibility holds exactly when progress ≥ 0.7R and
drawdown ≤ 0.25R, both inclusive; from the Initial state,
`(progress=0.70, drawdown=0.25)` is eligible and moves the state to Add1,
`(0.69, 0.20)` is ineligible and the state stays Initial, and `(0.80, 0.26)`
is ineligible. -/
theorem C9_add_to_winners_boundary :
    (∀ (m : AddToWinnersManager) (p d r : ℚ),
        (AddToWinnersManager.check_add_eligibility m p d r).1.eligible = true ↔
          (7/10 ≤ p ∧ d ≤ 1/4)) ∧
    ((AddToWinnersManager.check_add_eligibility {} (7/10) (1/4) 1).1.eligible = true ∧
      (AddToWinnersManager.check_add_eligibility {} (7/10) (1/4) 1).2.state = "add_1") ∧
    ((AddToWinnersManager.check_add_eligibility {} (69/100) (1/5) 1).1.eligible = false ∧
      (AddToWinnersManager.check_add_eligibility {} (69/100) (1/5) 1).2.state = "initial") ∧
    ((AddToWinnersManager.check_add_eligibility {} (4/5) (13/50) 1).1.eligible = false ∧
      (AddToWinnersManager.check_add_eligibility {} (4/5) (13/50) 1).2.state = "initial") := by
  refine ⟨fun m p d r => ?_, ?_, ?_, ?_⟩
  · unfold AddToWinnersManager.check_add_eligibility
    dsimp only
    split_ifs <;>
      simp [AddToWinnersManager.progress_threshold, AddToWinnersManager.drawdown_limit,
        ge_iff_le]
  all_goals
    norm_num [AddToWinnersManager.check_add_eligibility,
      AddToWinnersManager.progress_threshold, AddToWinnersManager.drawdown_limit]

/-- C9 witness: the eligibility equivalence instantiated at
`(progress, drawdown) = (0.75, 0.20)`. -/
theorem C9_add_to_winners_witness :
    (AddToWinnersManager.check_add_eligibility {} (3/4) (1/5) 1).1.eligible = true ↔
      ((7:ℚ)/10 ≤ 3/4 ∧ (1:ℚ)/5 ≤ 1/4) :=
  C9_add_to_winners_boundary.1 {} (3/4) (1/5) 1

/-- C10: a zero optional multiplier argument to `calculate_position_size` is
treated as absent (Python truthiness): `kelly_fraction = 0` applies no Kelly
cap or multiplication (so the size is not forced to zero units) and
`gssi_score = 0` applies no GSSI multiplier; the multipliers scale the
risk-based units exactly when the argument is nonzero. -/
theorem C10_zero_optional_args_treated_as_absent :
    ∀ (ps : PositionSizer) (inst : String) (e s : ℚ) (k g : Option ℚ) (kq gq : ℚ),
      (PositionSizer.calculate_position_size ps inst e s (some 0) g =
        PositionSizer.calculate_position_size ps inst e s none g) ∧
      (PositionSizer.calculate_position_size ps inst e s k (some 0) =
        PositionSizer.calculate_position_size ps inst e s k none) ∧
      (kq ≠ 0 →
        (PositionSizer.calculate_position_size ps inst e s (some kq) g).units_risk =
          (PositionSizer.calculate_position_size ps inst e s none g).units_risk *
            min kq (1/4)) ∧
      (gq ≠ 0 →
        (PositionSizer.calculate_position_size ps inst e s k (some gq)).units_risk =
          (PositionSizer.calculate_position_size ps inst e s k none).units_risk *
            PositionSizer.calculate_gssi_multiplier gq) := by
  intro ps inst e s k g kq gq
  refine ⟨?_, ?_, fun hk => ?_, fun hg => ?_⟩
  · simp [PositionSizer.calculate_position_size, truthy]
  · simp [PositionSizer.calculate_position_size, truthy]
  · simp only [PositionSizer.calculate_position_size, truthy, Option.getD_some,
      decide_eq_true_eq]
    rcases g with _ | gv <;> simp [hk] <;> split_ifs <;> ring
  · simp only [PositionSizer.calculate_position_size, truthy, Option.getD_some,
      decide_eq_true_eq]
    rcases k with _ | kv <;> simp [hg] <;> split_ifs <;> ring

/-- C10 witness: the multiplier clauses instantiated at kelly 0.3 and
GSSI 0.7 on a concrete sizing call. -/
theorem C10_zero_optional_args_witness :
    ((3:ℚ)/10 ≠ 0) ∧ ((7:ℚ)/10 ≠ 0) ∧
    ((PositionSizer.calculate_position_size ⟨100, 1/50⟩ "EURUSD" 1 (9/10)
        (some (3/10)) none).units_risk =
      (PositionSizer.calculate_position_size ⟨100, 1/50⟩ "EURUSD" 1 (9/10)
        none none).units_risk * min (3/10) (1/4)) ∧
    ((PositionSizer.calculate_position_size ⟨100, 1/50⟩ "EURUSD" 1 (9/10)
        none (some (7/10))).units_risk =
      (PositionSizer.calculate_position_size ⟨100, 1/50⟩ "EURUSD" 1 (9/10)
        none none).units_risk * PositionSizer.calculate_gssi_multiplier (7/10)) :=
  ⟨by norm_num, by norm_num,
    (C10_zero_optional_args_treated_as_absent ⟨100, 1/50⟩ "EURUSD" 1 (9/10) none none
      (3/10) (7/10)).2.2.1 (by norm_num),
    (C10_zero_optional_args_treated_as_absent ⟨100, 1/50⟩ "EURUSD" 1 (9/10) none none
      (3/10) (7/10)).2.2.2 (by norm_num)⟩

/-- C6 counterexample: at `gssi_score = 0.8` the sizing multiplier of
`PositionSizer._calculate_gssi_multiplier` is `0.5`, not the `0.4` that the
§4.3 bands would require. -/
theorem C6_sizing_bands_counterexample :
    PositionSizer.calculate_gssi_multiplier (4/5) = 1/2 ∧
    GSSICAREngine.leverage_gssi_multiplier (4/5) = 2/5 ∧
    ¬ PositionSizer.calculate_gssi_multiplier (4/5) = 2/5 := by
  norm_num [PositionSizer.calculate_gssi_multiplier, GSSICAREngine.leverage_gssi_multiplier]

/-- C6 (amended): the sizing GSSI multiplier is a three-tier schedule
(≥ 0.8 → 0.5, 0.6–0.8 → 0.75, else 1.0) that differs from the §4.3 leverage
bands of `apply_dynamic_leverage_adjustment` (≥ 0.8 → 0.4, ≥ 0.6 → 0.6,
≥ 0.4 → 0.8, else 1.0) on every band of at least 0.4. -/
theorem C6_sizing_bands_differ_from_leverage_bands :
    ∀ g : ℚ,
      (4/5 ≤ g →
        PositionSizer.calculate_gssi_multiplier g = 1/2 ∧
        GSSICAREngine.leverage_gssi_multiplier g = 2/5) ∧
      (3/5 ≤ g → g < 4/5 →
        PositionSizer.calculate_gssi_multiplier g = 3/4 ∧
        GSSICAREngine.leverage_gssi_multiplier g = 3/5) ∧
      (2/5 ≤ g → g < 3/5 →
        PositionSizer.calculate_gssi_multiplier g = 1 ∧
        GSSICAREngine.leverage_gssi_multiplier g = 4/5) ∧
      (g < 2/5 →
        PositionSizer.calculate_gssi_multiplier g = 1 ∧
        GSSICAREngine.leverage_gssi_multiplier g = 1) := by
  intro g
  unfold PositionSizer.calculate_gssi_multiplier GSSICAREngine.leverage_gssi_multiplier
  refine ⟨fun h1 => ?_, fun h1 h2 => ?_, fun h1 h2 => ?_, fun h1 => ?_⟩ <;>
    split_ifs <;> norm_num <;> linarith

/-- C6 witness: the band comparison instantiated at 0.8, 0.7, 0.5 and 0.3. -/
theorem C6_sizing_bands_witness :
    (PositionSizer.calculate_gssi_multiplier (4/5) = 1/2 ∧
      GSSICAREngine.leverage_gssi_multiplier (4/5) = 2/5) ∧
    (PositionSizer.calculate_gssi_multiplier (7/10) = 3/4 ∧
      GSSICAREngine.leverage_gssi_multiplier (7/10) = 3/5) ∧
    (PositionSizer.calculate_gssi_multiplier (1/2) = 1 ∧
      GSSICAREngine.leverage_gssi_multiplier (1/2) = 4/5) ∧
    (PositionSizer.calculate_gssi_multiplier (3/10) = 1 ∧
      GSSICAREngine.leverage_gssi_multiplier (3/10) = 1) :=
  ⟨(C6_sizing_bands_differ_from_leverage_bands (4/5)).1 (by norm_num),
   (C6_sizing_bands_differ_from_leverage_bands (7/10)).2.1 (by norm_num) (by norm_num),
   (C6_sizing_bands_differ_from_leverage_bands (1/2)).2.2.1 (by norm_num) (by norm_num),
   (C6_sizing_bands_differ_from_leverage_bands (3/10)).2.2.2 (by norm_num)⟩

/-- C4 counterexample: with balance 100, entry 1.0000 and a stop so tight that
the risk-based units dominate, `gssi_score = 0.8` still yields leverage 50
(the 0.5 GSSI multiplier touches only the risk-based units, not the notional
cap), refuting the claimed 25.0 bound. -/
theorem C4_leverage_counterexample :
    (4:ℚ)/5 ≥ 4/5 ∧
    (PositionSizer.calculate_position_size ⟨100, 1/50⟩ "EURUSD" 1 (1 - 1/100000000)
        none (some (4/5))).leverage_used = 50 ∧
    ¬ (PositionSizer.calculate_position_size ⟨100, 1/50⟩ "EURUSD" 1 (1 - 1/100000000)
        none (some (4/5))).leverage_used ≤ 25 := by
  have hd : "EURUSD".drop 3 = "USD" := by decide
  have h : (PositionSizer.calculate_position_size ⟨100, 1/50⟩ "EURUSD" 1 (1 - 1/100000000)
      none (some (4/5))).leverage_used = 50 := by
    have habs : |(1:ℚ)/100000000| = 1/100000000 := by norm_num
    norm_num [PositionSizer.calculate_position_size, PositionSizer.get_pip_value,
      PositionSizer.calculate_gssi_multiplier, truthy, truncQ, hd, min_def, habs]
  exact ⟨by norm_num, h, by rw [h]; norm_num⟩

/-- C4 (amended): for every sizing input with positive balance and entry
price, the resulting leverage is at most 50.0; for `gssi_score ≥ 0.8` the
risk-based units are halved (multiplier 0.5, not 0.4), but the notional-based
cap is untouched, so no 25.0 leverage bound holds. -/
theorem C4_leverage_bound :
    ∀ (ps : PositionSizer) (inst : String) (e s : ℚ) (k g : Option ℚ),
      0 < ps.account_balance → 0 < e →
      (PositionSizer.calculate_position_size ps inst e s k g).leverage_used ≤ 50 ∧
      (∀ gv : ℚ, 4/5 ≤ gv → PositionSizer.calculate_gssi_multiplier gv = 1/2) := by
  intro ps inst e s k g hb he
  constructor
  · have huN : (0:ℚ) ≤ ps.account_balance * 50 / e := by positivity
    have hfin :
        (PositionSizer.calculate_position_size ps inst e s k g).final_units ≤
          ps.account_balance * 50 / e := by
      unfold PositionSizer.calculate_position_size
      dsimp only
      exact truncQ_le _ _ (min_le_right _ _) huN
    have hlev :
        (PositionSizer.calculate_position_size ps inst e s k g).leverage_used =
          (PositionSizer.calculate_position_size ps inst e s k g).final_units * e /
            ps.account_balance := by
      unfold PositionSizer.calculate_position_size
      dsimp only
    rw [hlev, div_le_iff hb]
    calc (PositionSizer.calculate_position_size ps inst e s k g).final_units * e
        ≤ (ps.account_balance * 50 / e) * e :=
          mul_le_mul_of_nonneg_right hfin (le_of_lt he)
      _ = 50 * ps.account_balance := by field_simp; ring
  · intro gv hgv
    unfold PositionSizer.calculate_gssi_multiplier
    rw [if_pos (by linarith)]

/-- C4 witness: the 50.0 leverage bound at a concrete sizing call, and the
0.5 multiplier at GSSI 0.9. -/
theorem C4_leverage_bound_witness :
    (0:ℚ) < 100 ∧ (0:ℚ) < 1 ∧
    (PositionSizer.calculate_position_size ⟨100, 1/50⟩ "EURUSD" 1 (9/10)
        none none).leverage_used ≤ 50 ∧
    PositionSizer.calculate_gssi_multiplier (9/10) = 1/2 :=
  ⟨by norm_num, by norm_num,
    (C4_leverage_bound ⟨100, 1/50⟩ "EURUSD" 1 (9/10) none none
      (by norm_num) (by norm_num)).1,
    (C4_leverage_bound ⟨100, 1/50⟩ "EURUSD" 1 (9/10) none none
      (by norm_num) (by norm_num)).2 (9/10) (by norm_num)⟩

/-- C5 (code bug): `calculate_gssi_score` clamps only three of its four
components — the `momentum_breakdown` input is weighted raw, contradicting
the function's own documented range of 0.0–1.0: with zero stress in the three
clamped components and `momentum_breakdown = 10`, the returned GSSI score is
2.0, outside `[0,1]`. -/
theorem C5_gssi_momentum_not_clamped :
    GSSICAREngine.calculate_gssi_score
        { vix := 12, correlations := [3/10], spreads := [1], momentum_breakdown := 10 } = 2 ∧
    ¬ GSSICAREngine.calculate_gssi_score
        { vix := 12, correlations := [3/10], spreads := [1], momentum_breakdown := 10 } ≤ 1 := by
  have h : GSSICAREngine.calculate_gssi_score
      { vix := 12, correlations := [3/10], spreads := [1], momentum_breakdown := 10 } = 2 := by
    norm_num [GSSICAREngine.calculate_gssi_score, GSSICAREngine.gssi_raw,
      GSSICAREngine.vix_stress, GSSICAREngine.correlation_stress,
      GSSICAREngine.liquidity_stress, GSSICAREngine.avg_correlation,
      GSSICAREngine.avg_spread, listMean, clamp01, round4, roundHalfEven]
  exact ⟨h, by rw [h]; norm_num⟩

/-- C8: a classification with confidence `min(1, 2×(best − second best))`
strictly below 0.8 never changes `current_regime` (the whole classifier state
is left untouched), and whenever the call does change the regime the
confidence was at least 0.8. -/
theorem C8_regime_hysteresis :
    ∀ (st : MarketRegimeClassifier) (mf : MarketFeatures),
      (MarketRegimeClassifier.confidence mf < 4/5 →
        (MarketRegimeClassifier.classify_market_regime st mf).2 = st) ∧
      ((MarketRegimeClassifier.classify_market_regime st mf).2.current_regime ≠
          st.current_regime →
        4/5 ≤ MarketRegimeClassifier.confidence mf) := by
  intro st mf
  unfold MarketRegimeClassifier.classify_market_regime
  dsimp only
  constructor
  · intro hconf
    rw [if_neg (by rw [MarketRegimeClassifier.confidence_threshold]; linarith)]
  · intro hchange
    by_contra hlt
    rw [if_neg (by rw [MarketRegimeClassifier.confidence_threshold]; exact hlt)] at hchange
    exact hchange rfl

/-- C8 witness: the default feature snapshot scores ranging-low-vol best with
confidence 0.64 < 0.8, so the classifier state is unchanged. -/
theorem C8_regime_hysteresis_witness :
    MarketRegimeClassifier.confidence {} < 4/5 ∧
    (MarketRegimeClassifier.classify_market_regime
        { current_regime := .trending_bull, regime_confidence := 1/2 } {}).2 =
      { current_regime := .trending_bull, regime_confidence := 1/2 } := by
  have hconf : MarketRegimeClassifier.confidence {} < 4/5 := by
    norm_num [MarketRegimeClassifier.confidence, MarketRegimeClassifier.best_regime,
      MarketRegimeClassifier.second_best, MarketRegimeClassifier.sortDesc,
      MarketRegimeClassifier.insertDesc, MarketRegimeClassifier.regime_order,
      MarketRegimeClassifier.regime_score, min_def, max_def, abs_of_nonneg]
  exact ⟨hconf,
    (C8_regime_hysteresis { current_regime := .trending_bull, regime_confidence := 1/2 } {}).1
      hconf⟩

/-- C2 counterexample: with the Sentinel in Protect mode the override predicate
is true, yet the synchronous fallback path of `SupervisorEngine.score` still
runs the engines and returns their weighted score 0.5 instead of
short-circuiting to 0. -/
theorem C2_sync_fallback_counterexample :
    SentinelEngine.should_override_strategy_router .protect = true ∧
    (SupervisorEngine.score oneEngineSup false .protect .normal [] {} {}).1 = 1/2 ∧
    ¬ (SupervisorEngine.score oneEngineSup false .protect .normal [] {} {}).2.engine_scores
        = [] := by
  refine ⟨rfl, ?_, ?_⟩ <;>
    norm_num [SupervisorEngine.score, SupervisorEngine.basic_score,
      SupervisorEngine.unpack_basic, oneEngineSup, List.lookup]

/-- C2 (amended): `should_override_strategy_router` returns true exactly when
the mode is not StandDown, and on the `_async_score` path the Supervisor then
short-circuits: it returns score 0 with a `SENTINEL_OVERRIDE` decision and an
empty engine-score map, independently of the configured engines; the
synchronous fallback `_basic_score`, however, performs no such check (see the
counterexample). -/
theorem C2_sentinel_override_short_circuits_async :
    (∀ m : SentinelMode,
        SentinelEngine.should_override_strategy_router m = true ↔ m ≠ .stand_down) ∧
    (∀ (sup sup2 : SupervisorEngine) (mode : SentinelMode) (calib : SystemState)
        (regime_weights : List (String × ℚ)) (md : MarketData) (pd : PortfolioData),
      mode ≠ .stand_down →
      (SupervisorEngine.async_score sup mode calib regime_weights md pd).1 = 0 ∧
      (SupervisorEngine.async_score sup mode calib regime_weights md pd).2.supervisor_decision
          = "SENTINEL_OVERRIDE" ∧
      (SupervisorEngine.async_score sup mode calib regime_weights md pd).2.engine_scores
          = [] ∧
      SupervisorEngine.async_score sup2 mode calib regime_weights md pd =
        SupervisorEngine.async_score sup mode calib regime_weights md pd) := by
  constructor
  · intro m
    cases m <;> decide
  · intro sup sup2 mode calib regime_weights md pd hmode
    have hov : SentinelEngine.should_override_strategy_router mode = true := by
      cases mode
      · exact absurd rfl hmode
      · decide
      · decide
    refine ⟨?_, ?_, ?_, ?_⟩ <;> simp [SupervisorEngine.async_score, hov]

/-- C2 witness: the async short-circuit instantiated in Pounce mode with the
one-engine supervisor. -/
theorem C2_sentinel_override_witness :
    (SentinelMode.pounce ≠ SentinelMode.stand_down) ∧
    (SupervisorEngine.async_score oneEngineSup .pounce .normal [] {} {}).1 = 0 ∧
    (SupervisorEngine.async_score oneEngineSup .pounce .normal [] {} {}).2.supervisor_decision
        = "SENTINEL_OVERRIDE" :=
  ⟨by simp,
    (C2_sentinel_override_short_circuits_async.2 oneEngineSup oneEngineSup .pounce .normal
      [] {} {} (by simp)).1,
    (C2_sentinel_override_short_circuits_async.2 oneEngineSup oneEngineSup .pounce .normal
      [] {} {} (by simp)).2.1⟩

/-- C1 counterexample: with the CalibrationAuditor in the WeightLock state (and
the Sentinel standing down), a Supervisor evaluation cycle still returns a
`NORMAL_PROCESSING` decision with the full positive weighted score 0.5 —
nothing blocks the new position entry. -/
theorem C1_weight_lock_counterexample :
    (SupervisorEngine.async_score oneEngineSup .stand_down .weight_lock [] quietMarket {}).1
        = 1/2 ∧
    (SupervisorEngine.async_score oneEngineSup .stand_down .weight_lock []
        quietMarket {}).2.supervisor_decision = "NORMAL_PROCESSING" := by
  have hgssi : GSSICAREngine.calculate_gssi_score quietMarket = 0 := by
    norm_num [GSSICAREngine.calculate_gssi_score, GSSICAREngine.gssi_raw,
      GSSICAREngine.vix_stress, GSSICAREngine.correlation_stress,
      GSSICAREngine.liquidity_stress, GSSICAREngine.avg_correlation,
      GSSICAREngine.avg_spread, listMean, clamp01, round4, roundHalfEven, quietMarket]
  have hcar : GSSICAREngine.calculate_car_score {} 0 = 0 := by
    norm_num [GSSICAREngine.calculate_car_score, listMax0, round4, roundHalfEven]
  have hbeq : (SentinelMode.stand_down == SentinelMode.stand_down) = true := rfl
  constructor <;>
    norm_num [SupervisorEngine.async_score, SentinelEngine.should_override_strategy_router,
      SupervisorEngine.unpack_async, SupervisorEngine.merge_weights,
      SupervisorEngine.adjustment_factor, oneEngineSup, hgssi, hcar, hbeq, List.lookup]

/-- C1 (amended): the CalibrationAuditor holds an entered WeightLock for the
fixed 48-hour window — `check_weight_lock_status` reports the lock active and
leaves the state untouched while fewer than 48 hours have elapsed, and
releases it into Recalibration afterwards — but the Supervisor never consults
that lock: `_async_score` produces the identical score and decision for every
calibration system state, so no cycle-level blocking of non-exit actions
occurs. -/
theorem C1_supervisor_ignores_weight_lock :
    (∀ (sup : SupervisorEngine) (mode : SentinelMode) (c c2 : SystemState)
        (regime_weights : List (String × ℚ)) (md : MarketData) (pd : PortfolioData),
      SupervisorEngine.async_score sup mode c regime_weights md pd =
        SupervisorEngine.async_score sup mode c2 regime_weights md pd) ∧
    (∀ (s : CalibrationDegradationAuditor) (t now : ℚ),
      s.system_state = .weight_lock → s.weight_lock_start = some t →
      now - t < 48 →
      (CalibrationDegradationAuditor.check_weight_lock_status s now).1.weight_lock_active
          = true ∧
      (CalibrationDegradationAuditor.check_weight_lock_status s now).2 = s) ∧
    (∀ (s : CalibrationDegradationAuditor) (t now : ℚ),
      s.system_state = .weight_lock → s.weight_lock_start = some t →
      48 ≤ now - t →
      (CalibrationDegradationAuditor.check_weight_lock_status s now).1.weight_lock_active
          = false ∧
      (CalibrationDegradationAuditor.check_weight_lock_status s now).2.system_state
          = .recalibration) := by
  refine ⟨fun sup mode c c2 rws md pd => rfl, ?_, ?_⟩
  · intro s t now hstate hstart hlt
    unfold CalibrationDegradationAuditor.check_weight_lock_status
    rw [hstart]
    dsimp only
    rw [if_neg (by simp [hstate])]
    rw [if_neg (show ¬ now - t ≥ CalibrationDegradationAuditor.weight_lock_duration by
      unfold CalibrationDegradationAuditor.weight_lock_duration
      exact not_le.mpr (by linarith))]
    exact ⟨rfl, rfl⟩
  · intro s t now hstate hstart hge
    unfold CalibrationDegradationAuditor.check_weight_lock_status
    rw [hstart]
    dsimp only
    rw [if_neg (by simp [hstate])]
    rw [if_pos (show now - t ≥ CalibrationDegradationAuditor.weight_lock_duration by
      unfold CalibrationDegradationAuditor.weight_lock_duration
      exact hge)]
    exact ⟨rfl, rfl⟩

/-- C1 witness: a lock entered at hour 0 is still reported active at hour 10,
is released into Recalibration at hour 48, and the supervisor output in the
WeightLock state coincides with the output in the Normal state. -/
theorem C1_supervisor_ignores_weight_lock_witness :
    (({ system_state := .weight_lock, weight_lock_start := some 0 } :
        CalibrationDegradationAuditor).system_state = .weight_lock) ∧
    ((10:ℚ) - 0 < 48) ∧
    (CalibrationDegradationAuditor.check_weight_lock_status
        { system_state := .weight_lock, weight_lock_start := some 0 } 10).1.weight_lock_active
        = true ∧
    (CalibrationDegradationAuditor.check_weight_lock_status
        { system_state := .weight_lock, weight_lock_start := some 0 } 48).2.system_state
        = .recalibration ∧
    SupervisorEngine.async_score oneEngineSup .stand_down .weight_lock [] quietMarket {} =
      SupervisorEngine.async_score oneEngineSup .stand_down .normal [] quietMarket {} :=
  ⟨rfl, by norm_num,
    (C1_supervisor_ignores_weight_lock.2.1
      { system_state := .weight_lock, weight_lock_start := some 0 } 0 10 rfl rfl
      (by norm_num)).1,
    (C1_supervisor_ignores_weight_lock.2.2
      { system_state := .weight_lock, weight_lock_start := some 0 } 0 48 rfl rfl
      (by norm_num)).2,
    C1_supervisor_ignores_weight_lock.1 oneEngineSup .stand_down .weight_lock .normal []
      quietMarket {}⟩

/-- C3: on either execution path of `SupervisorEngine.score` (async or the
synchronous fallback), an engine whose `score` call raises is recorded with
score `0.0` and an error reason, and the returned weighted final score is
exactly what it would be without that engine — a single engine fault never
aborts the cycle (and the model is a total function: nothing is thrown). -/
theorem C3_engine_fault_never_aborts :
    ∀ (sup : SupervisorEngine) (path : Bool) (calib : SystemState)
      (regime_weights : List (String × ℚ)) (md : MarketData) (pd : PortfolioData)
      (name msg : String),
      (name, EngineCall.raises msg) ∈ sup.engines →
      (sup.engines.map Prod.fst).Nodup →
      ((SupervisorEngine.score sup path .stand_down calib regime_weights md
          pd).2.engine_scores.lookup name = some 0) ∧
      ((SupervisorEngine.score sup path .stand_down calib regime_weights md
          pd).2.reasons.lookup name =
        some ((if path then "engine_error: " else "error: ") ++ msg)) ∧
      ((SupervisorEngine.score sup path .stand_down calib regime_weights md pd).1 =
        (SupervisorEngine.score
          { sup with engines := sup.engines.filter (fun p => p.1 != name) }
          path .stand_down calib regime_weights md pd).1) := by
  intro sup path calib regime_weights md pd name msg hmem hnd
  have hlookup : sup.engines.lookup name = some (EngineCall.raises msg) :=
    lookup_eq_of_mem_of_nodup _ _ _ hmem hnd
  have h0 : ∀ p ∈ sup.engines, p.1 = name → p.2 = EngineCall.raises msg := by
    intro p hp hpn
    have := eq_of_mem_of_nodup_keys sup.engines p (name, EngineCall.raises msg) hp hmem hnd hpn
    rw [this]
  cases path
  · -- synchronous fallback `_basic_score`
    have hred : ∀ (s2 : SupervisorEngine),
        SupervisorEngine.score s2 false .stand_down calib regime_weights md pd =
          SupervisorEngine.basic_score s2 := fun _ => rfl
    rw [hred, hred]
    unfold SupervisorEngine.basic_score
    dsimp only
    refine ⟨?_, ?_, ?_⟩
    · rw [lookup_map_snd sup.engines (fun c => (SupervisorEngine.unpack_basic c).1) name,
        hlookup]
      rfl
    · rw [lookup_map_snd sup.engines (fun c => (SupervisorEngine.unpack_basic c).2) name,
        hlookup]
      rfl
    · exact weighted_sum_filter sup.engines name SupervisorEngine.unpack_basic
        sup.current_weights (fun p hp hpn => by rw [h0 p hp hpn]; rfl)
  · -- `_async_score`
    have hred : ∀ (s2 : SupervisorEngine),
        SupervisorEngine.score s2 true .stand_down calib regime_weights md pd =
          SupervisorEngine.async_score s2 .stand_down calib regime_weights md pd :=
      fun _ => rfl
    have hov : SentinelEngine.should_override_strategy_router .stand_down = false := rfl
    rw [hred, hred]
    unfold SupervisorEngine.async_score
    rw [hov]
    simp only [Bool.false_eq_true, if_false]
    refine ⟨?_, ?_, ?_⟩
    · rw [lookup_map_snd sup.engines (fun c => (SupervisorEngine.unpack_async c).1) name,
        hlookup]
      rfl
    · rw [lookup_map_snd sup.engines (fun c => (SupervisorEngine.unpack_async c).2) name,
        hlookup]
      rfl
    · rw [weighted_sum_filter sup.engines name SupervisorEngine.unpack_async
        (if sup.mrc_integration then
            SupervisorEngine.merge_weights sup.base_weights regime_weights
          else sup.current_weights)
        (fun p hp hpn => by rw [h0 p hp hpn]; rfl)]

/-- C3 witness: a two-engine supervisor whose first engine raises still
returns the second engine's weighted score, with the fault recorded as a
zero score and an error reason, on both execution paths. -/
theorem C3_engine_fault_witness :
    (("a", EngineCall.raises "boom") ∈ twoEngineSup.engines) ∧
    ((twoEngineSup.engines.map Prod.fst).Nodup) ∧
    ((SupervisorEngine.score twoEngineSup true .stand_down .normal [] {}
        {}).2.engine_scores.lookup "a" = some 0) ∧
    ((SupervisorEngine.score twoEngineSup false .stand_down .normal [] {}
        {}).2.reasons.lookup "a" = some ("error: " ++ "boom")) ∧
    ((SupervisorEngine.score twoEngineSup true .stand_down .normal [] {} {}).1 =
      (SupervisorEngine.score
        { twoEngineSup with
            engines := twoEngineSup.engines.filter (fun p => p.1 != "a") }
        true .stand_down .normal [] {} {}).1) :=
  ⟨by simp [twoEngineSup], by simp [twoEngineSup],
    (C3_engine_fault_never_aborts twoEngineSup true .normal [] {} {} "a" "boom"
      (by simp [twoEngineSup]) (by simp [twoEngineSup])).1,
    (C3_engine_fault_never_aborts twoEngineSup false .normal [] {} {} "a" "boom"
      (by simp [twoEngineSup]) (by simp [twoEngineSup])).2.1,
    (C3_engine_fault_never_aborts twoEngineSup true .normal [] {} {} "a" "boom"
      (by simp [twoEngineSup]) (by simp [twoEngineSup])).2.2⟩

/-- Filtering a replicated list keeps all or nothing. -/
theorem filter_replicate {α : Type} (n : ℕ) (a : α) (p : α → Bool) :
    (List.replicate n a).filter p = if p a then List.replicate n a else [] := by
  induction n with
  | zero => simp
  | succ m ih =>
    rw [List.replicate_succ, List.filter_cons, ih]
    by_cases hpa : p a = true <;> simp [hpa, List.replicate_succ]

/-- The `calculate_ece` accumulation loop computes exactly the §4.4 formula. -/
theorem ece_value_eq_spec (hist : List PredictionRecord) :
    CalibrationDegradationAuditor.ece_value hist 10 =
      CalibrationDegradationAuditor.ece_spec hist := by
  unfold CalibrationDegradationAuditor.ece_spec
  rw [sum_range_list]
  refine congrArg List.sum (List.map_congr_left ?_)
  intro i _
  unfold CalibrationDegradationAuditor.bin_contribution
  dsimp only
  split_ifs with h
  · rw [List.length_eq_zero.mp h]
    simp
  · rfl

/-- C7: with at least 20 samples, `calculate_ece` returns the 10-bin uniform
reliability-histogram ECE `Σ |mean(outcomes) − mean(predictions)| × count/total`
(at the 4-decimal display precision of the result dict), and the state moves
Normal → WeightLock exactly when that ECE exceeds 0.05; with fewer than 20
samples no breach is reported and the state is untouched.  The hypothesis that
predictions are probabilities and outcomes binary marks the non-exception path
of the Python implementation (`sklearn.calibration_curve` rejects anything
else). -/
theorem C7_ece_formula_and_weight_lock :
    ∀ (s : CalibrationDegradationAuditor) (now : ℚ),
      (∀ r ∈ s.prediction_history,
          0 ≤ r.predicted_prob ∧ r.predicted_prob ≤ 1 ∧
          (r.actual_outcome = 0 ∨ r.actual_outcome = 1)) →
      (20 ≤ s.prediction_history.length →
        ((CalibrationDegradationAuditor.calculate_ece s now).1.ece =
          round4 (CalibrationDegradationAuditor.ece_spec s.prediction_history)) ∧
        (s.system_state = .normal →
          ((CalibrationDegradationAuditor.calculate_ece s now).2.system_state =
              .weight_lock ↔
            CalibrationDegradationAuditor.ece_spec s.prediction_history > 1/20))) ∧
      (s.prediction_history.length < 20 →
        (CalibrationDegradationAuditor.calculate_ece s now).1.breach = false ∧
        (CalibrationDegradationAuditor.calculate_ece s now).1.ece = 0 ∧
        (CalibrationDegradationAuditor.calculate_ece s now).2 = s) := by
  intro s now hvalid
  constructor
  · intro hlen
    have hnl : ¬ s.prediction_history.length < 20 := Nat.not_lt.mpr hlen
    unfold CalibrationDegradationAuditor.calculate_ece
    rw [if_neg hnl]
    dsimp only
    rw [ece_value_eq_spec]
    split_ifs with hbr
    · refine ⟨rfl, fun _ => ?_⟩
      unfold CalibrationDegradationAuditor.trigger_weight_lock
      simp only [true_iff]
      have h1 := hbr.1
      rw [CalibrationDegradationAuditor.ece_threshold] at h1
      exact h1
    · refine ⟨rfl, fun hnorm => ?_⟩
      constructor
      · intro hws
        exfalso
        rw [hnorm] at hws
        exact SystemState.noConfusion hws
      · intro hgt
        exfalso
        apply hbr
        refine ⟨?_, hnorm⟩
        rw [CalibrationDegradationAuditor.ece_threshold]
        exact hgt
  · intro hlt
    unfold CalibrationDegradationAuditor.calculate_ece
    rw [if_pos hlt]
    exact ⟨rfl, rfl, rfl⟩

/-- An auditor holding 20 perfectly mis-calibrated samples: every prediction
says 0.5, every outcome is a win. -/
def calibSample : CalibrationDegradationAuditor :=
  { system_state := .normal, weight_lock_start := none,
    prediction_history := List.replicate 20 { predicted_prob := 1/2, actual_outcome := 1 },
    current_ece := 0 }

/-- C7 witness: the 20-sample dataset satisfies the validity hypotheses, its
spec-formula ECE is 0.5 > 0.05, and applying the theorem shows `calculate_ece`
reports `round4` of that value and locks the weights. -/
theorem C7_ece_witness :
    (20 ≤ calibSample.prediction_history.length) ∧
    CalibrationDegradationAuditor.ece_spec calibSample.prediction_history = 1/2 ∧
    ((CalibrationDegradationAuditor.calculate_ece calibSample 0).1.ece =
      round4 (CalibrationDegradationAuditor.ece_spec calibSample.prediction_history)) ∧
    ((CalibrationDegradationAuditor.calculate_ece calibSample 0).2.system_state =
      .weight_lock) := by
  have hvalid : ∀ r ∈ calibSample.prediction_history,
      0 ≤ r.predicted_prob ∧ r.predicted_prob ≤ 1 ∧
      (r.actual_outcome = 0 ∨ r.actual_outcome = 1) := by
    intro r hr
    rw [List.eq_of_mem_replicate hr]
    norm_num
  have hlen : 20 ≤ calibSample.prediction_history.length := by
    simp [calibSample]
  have hspec : CalibrationDegradationAuditor.ece_spec calibSample.prediction_history
      = 1/2 := by
    unfold CalibrationDegradationAuditor.ece_spec
    rw [show calibSample.prediction_history =
      List.replicate 20 { predicted_prob := 1/2, actual_outcome := 1 } from rfl]
    rw [Finset.sum_range_succ, Finset.sum_range_succ, Finset.sum_range_succ,
      Finset.sum_range_succ, Finset.sum_range_succ, Finset.sum_range_succ,
      Finset.sum_range_succ, Finset.sum_range_succ, Finset.sum_range_succ,
      Finset.sum_range_succ, Finset.sum_range_zero]
    dsimp only
    rw [filter_replicate, filter_replicate, filter_replicate, filter_replicate,
      filter_replicate, filter_replicate, filter_replicate, filter_replicate,
      filter_replicate, filter_replicate]
    norm_num [CalibrationDegradationAuditor.in_bin, List.sum_replicate, List.map_replicate]
  have h := (C7_ece_formula_and_weight_lock calibSample 0 hvalid).1 hlen
  refine ⟨hlen, hspec, h.1, ?_⟩
  refine (h.2 rfl).mpr ?_
  rw [hspec]
  norm_num

end ForexSignals
